import Mathlib

/-!
Verification of the local run manager of a worker node
(`codalab/worker/local_run/local_run_manager.py`).

The embedding is shallow: the registry `self._runs` (a Python dict, which
preserves insertion order) is modelled as an association list
`List (String × LocalRunState)`, Python sets of CPU/GPU index strings are
modelled as `List String` (CPython set iteration order is a deterministic
function of the set's contents within one process, which is all the code
relies on), raised exceptions become `Except`/explicit error values, and
timestamps are opaque naturals supplied by the caller.
-/

namespace CodaLabWorker

/-- Stages of a local run, from `local_run_state.py` (`LocalRunStage`),
as enumerated in the specification. -/
inductive LocalRunStage where
  | PREPARING
  | RUNNING
  | CLEANING_UP
  | UPLOADING_RESULTS
  | FINALIZING
  | FINISHED
deriving DecidableEq, Repr

/-- A declared dependency record of a bundle: parent bundle/path and the
child path (relative mount point inside the bundle). -/
structure DependencyKey where
  parent_uuid : String
  parent_path : String
  child_path : String
deriving DecidableEq, Repr

/-- The bundle fields the run manager reads: `uuid`, `location`
(server-assigned path, used in shared-filesystem mode) and the declared
dependencies. -/
structure BundleInfo where
  uuid : String
  location : String
  dependencies : List DependencyKey
deriving DecidableEq, Repr

/-- The requested resources of a run (`RunResources`). -/
structure RunResources where
  cpus : Nat
  gpus : Nat
  memory : Nat
  disk : Nat
  network : Bool
deriving DecidableEq, Repr

/-- A live container handle returned by the container runtime
(`docker.models.containers.Container`): an object, not an id string.
We record the id it was created from so the runtime map can be related
to handles. -/
structure Container where
  handle_id : String
deriving DecidableEq, Repr

/-- `LocalRunState`: the per-run record (namedtuple in
`local_run_state.py`), with every field the manager touches. -/
structure LocalRunState where
  stage : LocalRunStage
  run_status : String
  bundle : BundleInfo
  bundle_path : String
  bundle_dir_wait_num_tries : Nat
  resources : RunResources
  bundle_start_time : Nat
  container_start_time : Option Nat
  container_time_total : Nat
  container_time_user : Nat
  container_time_system : Nat
  container_id : Option String
  container : Option Container
  docker_image : Option String
  is_killed : Bool
  has_contents : Bool
  cpuset : Option (List String)
  gpuset : Option (List String)
  max_memory : Nat
  disk_utilization : Nat
  exitcode : Option Int
  failure_message : Option String
  kill_message : Option String
  finished : Bool
  finalized : Bool
deriving DecidableEq, Repr

/-- The registry `self._runs : Dict[str, LocalRunState]`, as an
insertion-ordered association list. -/
abbrev Registry := List (String × LocalRunState)

/-- The state of `LocalRunManager` that the verified operations read and
write: node resources, configuration flags and the registry. -/
structure LocalRunManager where
  _cpuset : List String
  _gpuset : List String
  _work_dir : String
  _shared_file_system : Bool
  _stop : Bool
  _runs : Registry
deriving DecidableEq, Repr

/-- Python dict lookup `runs[uuid]` / `uuid in runs` on the association
list: first entry with the key. -/
def lookupRun : Registry → String → Option LocalRunState
  | [], _ => none
  | (k, v) :: rest, u => if k = u then some v else lookupRun rest u

/-- Python dict assignment `runs[uuid] = r`: replace the existing entry in
place, or append a new entry (dicts preserve insertion order). -/
def setRun : Registry → String → LocalRunState → Registry
  | [], u, r => [(u, r)]
  | (k, v) :: rest, u, r => if k = u then (k, r) :: rest else (k, v) :: setRun rest u r

/-! ## `assign_cpu_and_gpu_sets` (lines 250-287)

The method copies the node's `_cpuset`/`_gpuset`, subtracts the sets held
by RUNNING runs, raises when fewer indices remain than requested, and
otherwise proposes the first `request_count` free indices
(`list(resource_set)[:request_count]`, each passed through `str`). -/

/-- The loop `for run_state in self._runs.values(): if stage == RUNNING:
cpuset -= run_state.cpuset; gpuset -= run_state.gpuset`. A RUNNING run
whose `cpuset`/`gpuset` is `None` would make the Python `-=` raise a
`TypeError`, which we surface as an error. -/
def subtractRunning : Registry → List String × List String → Except String (List String × List String)
  | [], acc => .ok acc
  | p :: rest, acc =>
    if p.2.stage = .RUNNING then
      match p.2.cpuset, p.2.gpuset with
      | some cs, some gs =>
          subtractRunning rest
            (acc.1.filter (fun x => decide (x ∉ cs)), acc.2.filter (fun x => decide (x ∉ gs)))
      | _, _ => .error "TypeError"
    else subtractRunning rest acc

/-- The Python error message `"Requested more CPUs (%d) than available
(%d currently out of %d on the machine)"`. -/
def cpuErrMsg (req avail total : Nat) : String :=
  "Requested more CPUs (" ++ toString req ++ ") than available (" ++ toString avail
    ++ " currently out of " ++ toString total ++ " on the machine)"

/-- The Python error message `"Requested more GPUs (%d) than available
(%d currently out of %d on the machine)"`. -/
def gpuErrMsg (req avail total : Nat) : String :=
  "Requested more GPUs (" ++ toString req ++ ") than available (" ++ toString avail
    ++ " currently out of " ++ toString total ++ " on the machine)"

/-- `propose_set(resource_set, request_count)`: the first `request_count`
free indices, each through `str` (the identity here, since the indices are
already strings). -/
def propose_set (resource_set : List String) (request_count : Nat) : List String :=
  (resource_set.take request_count).map toString

/-- `assign_cpu_and_gpu_sets(request_cpus, request_gpus)`. -/
def assign_cpu_and_gpu_sets (m : LocalRunManager) (request_cpus request_gpus : Nat) :
    Except String (List String × List String) :=
  match subtractRunning m._runs (m._cpuset, m._gpuset) with
  | .error e => .error e
  | .ok (cpuset, gpuset) =>
    if cpuset.length < request_cpus then
      .error (cpuErrMsg request_cpus cpuset.length m._cpuset.length)
    else if gpuset.length < request_gpus then
      .error (gpuErrMsg request_gpus gpuset.length m._gpuset.length)
    else
      .ok (propose_set cpuset request_cpus, propose_set gpuset request_gpus)

/-- The method as an operation on the manager state: it reads `self` but
never writes a field, so the state component of the result is the input
state itself (this mirrors the source, whose body contains no assignment
to `self`). -/
def assignOp (m : LocalRunManager) (request_cpus request_gpus : Nat) :
    Except String (List String × List String) × LocalRunManager :=
  (assign_cpu_and_gpu_sets m request_cpus request_gpus, m)

/-- Two successive calls with no intervening state change, threading the
manager state through. -/
def assignTwice (m : LocalRunManager) (request_cpus request_gpus : Nat) :
    Except String (List String × List String) × Except String (List String × List String) × LocalRunManager :=
  let (r1, m1) := assignOp m request_cpus request_gpus
  let (r2, m2) := assignOp m1 request_cpus request_gpus
  (r1, r2, m2)

/-! Lemmas about the free-set computation. -/

theorem subtractRunning_sublist :
    ∀ (runs : Registry) (acc : List String × List String) (fc fg : List String),
      subtractRunning runs acc = .ok (fc, fg) → fc.Sublist acc.1 ∧ fg.Sublist acc.2 := by
  intro runs
  induction runs with
  | nil =>
    intro acc fc fg h
    simp only [subtractRunning] at h
    cases h
    exact ⟨List.Sublist.refl _, List.Sublist.refl _⟩
  | cons p rest ih =>
    intro acc fc fg h
    simp only [subtractRunning] at h
    by_cases hst : p.2.stage = .RUNNING
    · simp only [hst, if_true] at h
      cases hc : p.2.cpuset with
      | none => rw [hc] at h; cases p.2.gpuset <;> simp at h
      | some cs =>
        cases hg : p.2.gpuset with
        | none => rw [hc, hg] at h; simp at h
        | some gs =>
          rw [hc, hg] at h
          have := ih _ fc fg h
          exact ⟨this.1.trans (List.filter_sublist _), this.2.trans (List.filter_sublist _)⟩
    · simp only [hst, if_false] at h
      exact ih _ fc fg h

theorem subtractRunning_running :
    ∀ (runs : Registry) (acc : List String × List String) (fc fg : List String),
      subtractRunning runs acc = .ok (fc, fg) →
      ∀ p ∈ runs, p.2.stage = .RUNNING →
        ∃ cs gs, p.2.cpuset = some cs ∧ p.2.gpuset = some gs ∧
          (∀ x ∈ fc, x ∉ cs) ∧ (∀ x ∈ fg, x ∉ gs) := by
  intro runs
  induction runs with
  | nil => intro acc fc fg _ p hp; exact absurd hp (List.not_mem_nil p)
  | cons q rest ih =>
    intro acc fc fg h p hp hst
    simp only [subtractRunning] at h
    rcases List.mem_cons.mp hp with rfl | hmem
    · simp only [hst, if_true] at h
      cases hc : p.2.cpuset with
      | none => rw [hc] at h; cases p.2.gpuset <;> simp at h
      | some cs =>
        cases hg : p.2.gpuset with
        | none => rw [hc, hg] at h; simp at h
        | some gs =>
          rw [hc, hg] at h
          have hsub := subtractRunning_sublist _ _ _ _ h
          refine ⟨cs, gs, rfl, rfl, ?_, ?_⟩
          · intro x hx
            have hx' := hsub.1.subset hx
            have := List.of_mem_filter hx'
            exact of_decide_eq_true this
          · intro x hx
            have hx' := hsub.2.subset hx
            have := List.of_mem_filter hx'
            exact of_decide_eq_true this
    · by_cases hqst : q.2.stage = .RUNNING
      · simp only [hqst, if_true] at h
        cases hc : q.2.cpuset with
        | none => rw [hc] at h; cases q.2.gpuset <;> simp at h
        | some cs =>
          cases hg : q.2.gpuset with
          | none => rw [hc, hg] at h; simp at h
          | some gs =>
            rw [hc, hg] at h
            exact ih _ fc fg h p hmem hst
      · simp only [hqst, if_false] at h
        exact ih _ fc fg h p hmem hst

theorem toString_string_id (s : String) : toString s = s := rfl

theorem propose_set_eq_take (l : List String) (k : Nat) :
    propose_set l k = l.take k := by
  unfold propose_set
  have : ∀ xs : List String, xs.map toString = xs := by
    intro xs
    induction xs with
    | nil => rfl
    | cons a t iht => simp [List.map, toString_string_id, iht]
  exact this _

theorem string_append_assoc (a b c : String) : a ++ b ++ c = a ++ (b ++ c) := by
  apply String.ext
  simp [String.data_append]

/-- Evaluating `assign_cpu_and_gpu_sets` when the free sets are large
enough: the first `request` free indices are proposed. -/
theorem assign_ok_of_free (m : LocalRunManager) (c g : Nat) (fc fg : List String)
    (hfree : subtractRunning m._runs (m._cpuset, m._gpuset) = .ok (fc, fg))
    (hc : ¬ fc.length < c) (hg : ¬ fg.length < g) :
    assign_cpu_and_gpu_sets m c g = .ok (fc.take c, fg.take g) := by
  unfold assign_cpu_and_gpu_sets
  rw [hfree]
  simp [hc, hg, propose_set_eq_take]

theorem assign_error_of_cpus (m : LocalRunManager) (c g : Nat) (fc fg : List String)
    (hfree : subtractRunning m._runs (m._cpuset, m._gpuset) = .ok (fc, fg))
    (h1 : fc.length < c) :
    assign_cpu_and_gpu_sets m c g = .error (cpuErrMsg c fc.length m._cpuset.length) := by
  unfold assign_cpu_and_gpu_sets
  rw [hfree]
  simp [h1]

theorem assign_error_of_gpus (m : LocalRunManager) (c g : Nat) (fc fg : List String)
    (hfree : subtractRunning m._runs (m._cpuset, m._gpuset) = .ok (fc, fg))
    (h1 : ¬ fc.length < c) (h2 : fg.length < g) :
    assign_cpu_and_gpu_sets m c g = .error (gpuErrMsg g fg.length m._gpuset.length) := by
  unfold assign_cpu_and_gpu_sets
  rw [hfree]
  simp [h1, h2]

theorem assign_ok_inv (m : LocalRunManager) (c g : Nat) (cs gs : List String)
    (h : assign_cpu_and_gpu_sets m c g = .ok (cs, gs)) :
    ∃ fc fg, subtractRunning m._runs (m._cpuset, m._gpuset) = .ok (fc, fg) ∧
      c ≤ fc.length ∧ g ≤ fg.length ∧ cs = fc.take c ∧ gs = fg.take g := by
  unfold assign_cpu_and_gpu_sets at h
  cases hs : subtractRunning m._runs (m._cpuset, m._gpuset) with
  | error e => rw [hs] at h; simp at h
  | ok p =>
    rw [hs] at h
    obtain ⟨fc, fg⟩ := p
    by_cases h1 : fc.length < c
    · simp [h1] at h
    · by_cases h2 : fg.length < g
      · simp [h1, h2] at h
      · simp only [h1, h2, if_false, Except.ok.injEq, Prod.mk.injEq] at h
        rw [propose_set_eq_take, propose_set_eq_take] at h
        exact ⟨fc, fg, rfl, Nat.not_lt.mp h1, Nat.not_lt.mp h2, h.1.symm, h.2.symm⟩

/-- C1: a successful call to `assign_cpu_and_gpu_sets` with requested CPU
count `c` and GPU count `g` returns a cpuset with exactly `c` elements and
a gpuset with exactly `g` elements (lengths are exact, and the lists are
duplicate-free whenever the node sets are); every returned index comes
from the node's `_cpuset`/`_gpuset` minus the indices held by runs in
stage RUNNING; and the call leaves the manager state — registry and all
run states — unchanged. -/
theorem assign_cpu_and_gpu_sets_spec (m : LocalRunManager) (c g : Nat) (cs gs : List String)
    (h : assign_cpu_and_gpu_sets m c g = .ok (cs, gs)) :
    cs.length = c ∧ gs.length = g ∧
    (m._cpuset.Nodup → cs.Nodup) ∧ (m._gpuset.Nodup → gs.Nodup) ∧
    (∀ x ∈ cs, x ∈ m._cpuset ∧
      ∀ p ∈ m._runs, p.2.stage = .RUNNING → ∀ s, p.2.cpuset = some s → x ∉ s) ∧
    (∀ x ∈ gs, x ∈ m._gpuset ∧
      ∀ p ∈ m._runs, p.2.stage = .RUNNING → ∀ s, p.2.gpuset = some s → x ∉ s) ∧
    assignOp m c g = (.ok (cs, gs), m) := by
  obtain ⟨fc, fg, hfree, hc, hg, rfl, rfl⟩ := assign_ok_inv m c g cs gs h
  have hsub := subtractRunning_sublist m._runs (m._cpuset, m._gpuset) fc fg hfree
  have hrun := subtractRunning_running m._runs (m._cpuset, m._gpuset) fc fg hfree
  refine ⟨?_, ?_, ?_, ?_, ?_, ?_, ?_⟩
  · simp [List.length_take, Nat.min_eq_left hc]
  · simp [List.length_take, Nat.min_eq_left hg]
  · intro hnd; exact List.Nodup.sublist ((List.take_sublist _ _).trans hsub.1) hnd
  · intro hnd; exact List.Nodup.sublist ((List.take_sublist _ _).trans hsub.2) hnd
  · intro x hx
    have hxf : x ∈ fc := (List.take_sublist _ _).subset hx
    refine ⟨hsub.1.subset hxf, ?_⟩
    intro p hp hst s hs
    obtain ⟨cs', gs', hcs, _, hnc, _⟩ := hrun p hp hst
    rw [hs] at hcs
    injection hcs with h'
    rw [h']
    exact hnc x hxf
  · intro x hx
    have hxf : x ∈ fg := (List.take_sublist _ _).subset hx
    refine ⟨hsub.2.subset hxf, ?_⟩
    intro p hp hst s hs
    obtain ⟨cs', gs', _, hgs, _, hng⟩ := hrun p hp hst
    rw [hs] at hgs
    injection hgs with h'
    rw [h']
    exact hng x hxf
  · simp only [assignOp, h]

/-- A concrete RUNNING run used by the witnesses: holds CPU "1" on the
node, leaving "0", "2", "3" free. -/
def runW : LocalRunState where
  stage := .RUNNING
  run_status := "Running"
  bundle := ⟨"0xrun", "/srv/bundles/0xrun", []⟩
  bundle_path := "/w/runs/0xrun"
  bundle_dir_wait_num_tries := 120
  resources := ⟨1, 0, 1000, 1000, false⟩
  bundle_start_time := 5
  container_start_time := some 6
  container_time_total := 0
  container_time_user := 0
  container_time_system := 0
  container_id := some "c0"
  container := some ⟨"c0"⟩
  docker_image := some "library/ubuntu"
  is_killed := false
  has_contents := true
  cpuset := some ["1"]
  gpuset := some []
  max_memory := 0
  disk_utilization := 0
  exitcode := none
  failure_message := none
  kill_message := none
  finished := false
  finalized := false

/-- A concrete manager: four CPUs, one GPU, one RUNNING run holding
CPU "1". -/
def mW : LocalRunManager where
  _cpuset := ["0", "1", "2", "3"]
  _gpuset := ["g0"]
  _work_dir := "/w"
  _shared_file_system := false
  _stop := false
  _runs := [("0xrun", runW)]

/-- Witness for C1 at a concrete input: requesting 2 CPUs and 1 GPU on
`mW` succeeds with cpuset ["0", "2"] and gpuset ["g0"], of the exact
requested sizes. -/
theorem assign_cpu_and_gpu_sets_spec_witness :
    assign_cpu_and_gpu_sets mW 2 1 = .ok (["0", "2"], ["g0"]) ∧
    (["0", "2"] : List String).length = 2 ∧ (["g0"] : List String).length = 1 :=
  ⟨rfl, (assign_cpu_and_gpu_sets_spec mW 2 1 ["0", "2"] ["g0"] rfl).1,
    (assign_cpu_and_gpu_sets_spec mW 2 1 ["0", "2"] ["g0"] rfl).2.1⟩

theorem cpuErrMsg_mentions (req avail total : Nat) :
    ∃ x y z, cpuErrMsg req avail total
      = x ++ (toString avail ++ (y ++ (toString total ++ z))) := by
  refine ⟨"Requested more CPUs (" ++ toString req ++ ") than available (",
    " currently out of ", " on the machine)", ?_⟩
  unfold cpuErrMsg
  simp only [string_append_assoc]

theorem gpuErrMsg_mentions (req avail total : Nat) :
    ∃ x y z, gpuErrMsg req avail total
      = x ++ (toString avail ++ (y ++ (toString total ++ z))) := by
  refine ⟨"Requested more GPUs (" ++ toString req ++ ") than available (",
    " currently out of ", " on the machine)", ?_⟩
  unfold gpuErrMsg
  simp only [string_append_assoc]

/-- C6: with the free sets computed by the RUNNING-subtraction (the
hypothesis holds whenever every RUNNING run has assigned sets, the
specification's invariant 2), `assign_cpu_and_gpu_sets` raises exactly
when the free CPU list is shorter than the requested CPU count or the
free GPU list is shorter than the requested GPU count; the raised
message is the CPU message (checked first) or else the GPU message, and
it reports both the currently available count and the node's total
count; and the manager state is left unchanged. -/
theorem assign_cpu_and_gpu_sets_error_spec (m : LocalRunManager) (c g : Nat) (fc fg : List String)
    (hfree : subtractRunning m._runs (m._cpuset, m._gpuset) = .ok (fc, fg)) :
    ((∃ e, assign_cpu_and_gpu_sets m c g = .error e) ↔ fc.length < c ∨ fg.length < g) ∧
    (∀ e, assign_cpu_and_gpu_sets m c g = .error e →
      (fc.length < c ∧ e = cpuErrMsg c fc.length m._cpuset.length) ∨
      (¬ fc.length < c ∧ fg.length < g ∧ e = gpuErrMsg g fg.length m._gpuset.length)) ∧
    (∀ e, assign_cpu_and_gpu_sets m c g = .error e →
      (∃ x y z, e = x ++ (toString fc.length ++ (y ++ (toString m._cpuset.length ++ z)))) ∨
      (∃ x y z, e = x ++ (toString fg.length ++ (y ++ (toString m._gpuset.length ++ z))))) ∧
    (assignOp m c g).2 = m := by
  have herr : ∀ e, assign_cpu_and_gpu_sets m c g = .error e →
      (fc.length < c ∧ e = cpuErrMsg c fc.length m._cpuset.length) ∨
      (¬ fc.length < c ∧ fg.length < g ∧ e = gpuErrMsg g fg.length m._gpuset.length) := by
    intro e he
    by_cases h1 : fc.length < c
    · exact Or.inl ⟨h1, Except.error.inj (he.symm.trans (assign_error_of_cpus m c g fc fg hfree h1))⟩
    · by_cases h2 : fg.length < g
      · exact Or.inr ⟨h1, h2,
          Except.error.inj (he.symm.trans (assign_error_of_gpus m c g fc fg hfree h1 h2))⟩
      · exact absurd (he.symm.trans (assign_ok_of_free m c g fc fg hfree h1 h2))
          (fun hc' => Except.noConfusion hc')
  refine ⟨⟨?_, ?_⟩, herr, ?_, rfl⟩
  · rintro ⟨e, he⟩
    rcases herr e he with ⟨h1, _⟩ | ⟨_, h2, _⟩
    · exact Or.inl h1
    · exact Or.inr h2
  · intro h
    by_cases h1 : fc.length < c
    · exact ⟨_, assign_error_of_cpus m c g fc fg hfree h1⟩
    · rcases h with h | h2
      · exact absurd h h1
      · exact ⟨_, assign_error_of_gpus m c g fc fg hfree h1 h2⟩
  · intro e he
    rcases herr e he with ⟨_, rfl⟩ | ⟨_, _, rfl⟩
    · exact Or.inl (cpuErrMsg_mentions _ _ _)
    · exact Or.inr (gpuErrMsg_mentions _ _ _)

/-- A concrete manager with one free CPU and no runs, used for the
error-path witness. -/
def mW6 : LocalRunManager where
  _cpuset := ["0"]
  _gpuset := []
  _work_dir := "/w"
  _shared_file_system := false
  _stop := false
  _runs := []

/-- Witness for C6 at a concrete input: requesting 2 CPUs on a node with
a single free CPU raises. -/
theorem assign_cpu_and_gpu_sets_error_spec_witness :
    ∃ e, assign_cpu_and_gpu_sets mW6 2 0 = .error e :=
  (assign_cpu_and_gpu_sets_error_spec mW6 2 0 ["0"] [] rfl).1.mpr (Or.inl (by decide))

/-- C7: the allocator is deterministic — starting from any manager
state whose free sets are `fc`/`fg` and suffice for the request, two
successive calls with no intervening state change both return the first
`c` free CPU indices and the first `g` free GPU indices (the stable
ordering being the node list order with used indices filtered out), and
the manager state after both calls is the original one. -/
theorem assign_cpu_and_gpu_sets_deterministic (m : LocalRunManager) (c g : Nat)
    (fc fg : List String)
    (hfree : subtractRunning m._runs (m._cpuset, m._gpuset) = .ok (fc, fg))
    (hc : c ≤ fc.length) (hg : g ≤ fg.length) :
    assignTwice m c g = (.ok (fc.take c, fg.take g), .ok (fc.take c, fg.take g), m) := by
  have hok := assign_ok_of_free m c g fc fg hfree (Nat.not_lt.mpr hc) (Nat.not_lt.mpr hg)
  simp [assignTwice, assignOp, hok]

/-- Witness for C7 at a concrete input: on `mW` (free CPUs
["0", "2", "3"], free GPU ["g0"]) both successive calls return the first
two free CPUs and the first free GPU. -/
theorem assign_cpu_and_gpu_sets_deterministic_witness :
    assignTwice mW 2 1
      = (.ok ((["0", "2", "3"] : List String).take 2, (["g0"] : List String).take 1),
         .ok ((["0", "2", "3"] : List String).take 2, (["g0"] : List String).take 1), mW) :=
  assign_cpu_and_gpu_sets_deterministic mW 2 1 ["0", "2", "3"] ["g0"] rfl (by decide) (by decide)

/-! ## User-facing registry operations: `write`, `read`, `kill`,
`mark_finalized` (lines 297-352)

`kill`, `read` and `write` all start with `run_state = self._runs[uuid]`,
a Python dict subscript that raises `KeyError` on an unknown key; the
exception propagates before any mutation, so an error result carries no
new state. `mark_finalized` instead guards with `if uuid in self._runs`. -/

/-- Python exceptions raised by the registry operations. -/
inductive PyError where
  | keyError
deriving DecidableEq, Repr

/-- `os.path.join` with a relative second component, as used for
`<bundle_path>/<path>` and `<work_dir>/runs/<uuid>`. -/
def joinPath (a b : String) : String := a ++ "/" ++ b

/-- The host filesystem visible to `write`: a map from path to
contents. -/
abbrev FileSystem := List (String × String)

/-- Writing a file: replace the entry for the path or create it. -/
def fsWrite : FileSystem → String → String → FileSystem
  | [], p, s => [(p, s)]
  | (k, v) :: rest, p, s => if k = p then (k, s) :: rest else (k, v) :: fsWrite rest p s

/-- `write(uuid, path, string)` (lines 312-320): look the run up
(KeyError on an unknown uuid), return silently when the normalised path
is a declared dependency child path, otherwise write the contents to
`<bundle_path>/<path>`. `os.path.normpath` is an external library
function, passed in as `normpath`. -/
def write (m : LocalRunManager) (normpath : String → String) (fs : FileSystem)
    (uuid path string : String) : Except PyError FileSystem :=
  match lookupRun m._runs uuid with
  | none => .error .keyError
  | some run_state =>
    if normpath path ∈ run_state.bundle.dependencies.map (fun dep => dep.child_path) then
      .ok fs
    else
      .ok (fsWrite fs (joinPath run_state.bundle_path path) string)

/-- The delegated call `self._reader.read(run_state, path, args, reply)`:
the reader is an external collaborator, so the embedding records the run
state and path it is invoked with. -/
structure ReadCall where
  run_state : LocalRunState
  path : String
deriving DecidableEq, Repr

/-- `read(uuid, path, args, reply)` (lines 305-310): look the run up
(KeyError on an unknown uuid) and delegate to the reader; the registry is
returned unchanged. -/
def read (m : LocalRunManager) (uuid path : String) :
    Except PyError (ReadCall × LocalRunManager) :=
  match lookupRun m._runs uuid with
  | none => .error .keyError
  | some run_state => .ok (⟨run_state, path⟩, m)

/-- `kill(uuid)` (lines 345-352): look the run up (KeyError on an
unknown uuid), set the kill message and flag, and store the run back
under `run_state.bundle.uuid`. -/
def kill (m : LocalRunManager) (uuid : String) : Except PyError LocalRunManager :=
  match lookupRun m._runs uuid with
  | none => .error .keyError
  | some run_state =>
    let run_state := { run_state with kill_message := some "Kill requested", is_killed := true }
    .ok { m with _runs := setRun m._runs run_state.bundle.uuid run_state }

/-- `mark_finalized(uuid)` (lines 297-303): set `finalized=True` when the
uuid is registered, silently do nothing otherwise. -/
def mark_finalized (m : LocalRunManager) (uuid : String) : LocalRunManager :=
  match lookupRun m._runs uuid with
  | none => m
  | some run_state =>
    { m with _runs := setRun m._runs uuid { run_state with finalized := true } }

theorem lookupRun_setRun :
    ∀ (runs : Registry) (u : String) (r : LocalRunState) (u' : String),
      lookupRun (setRun runs u r) u' = if u' = u then some r else lookupRun runs u' := by
  intro runs
  induction runs with
  | nil =>
    intro u r u'
    by_cases h : u' = u
    · subst h; simp [setRun, lookupRun]
    · simp [setRun, lookupRun, h, Ne.symm h]
  | cons p rest ih =>
    intro u r u'
    by_cases hk : p.1 = u
    · by_cases h : u' = u
      · subst h
        simp [setRun, lookupRun, hk]
      · have h1 : p.1 ≠ u' := fun hh => h (hh.symm.trans hk)
        have h2 : ¬ u = u' := fun hh => h hh.symm
        simp [setRun, lookupRun, hk, h, h1, h2]
    · by_cases h : p.1 = u'
      · have : ¬ u' = u := fun hh => hk (h.trans hh)
        simp [setRun, lookupRun, hk, h, this]
      · simp [setRun, lookupRun, hk, h, ih]

/-- C5: for a registered run, a `write` whose normalised path equals one
of the declared dependency child paths returns without raising and
leaves the filesystem unchanged; for any other path it writes the
contents to `<bundle_path>/<path>`. -/
theorem write_spec (m : LocalRunManager) (normpath : String → String) (fs : FileSystem)
    (uuid path string : String) (run_state : LocalRunState)
    (h : lookupRun m._runs uuid = some run_state) :
    (normpath path ∈ run_state.bundle.dependencies.map (fun dep => dep.child_path) →
      write m normpath fs uuid path string = .ok fs) ∧
    (normpath path ∉ run_state.bundle.dependencies.map (fun dep => dep.child_path) →
      write m normpath fs uuid path string
        = .ok (fsWrite fs (joinPath run_state.bundle_path path) string)) := by
  unfold write
  rw [h]
  constructor
  · intro hin; simp [hin]
  · intro hout; simp [hout]

/-- A run with a declared dependency mounted at child path
"dep/child". -/
def runW5 : LocalRunState :=
  { runW with
    bundle := ⟨"0xw5", "/srv/bundles/0xw5", [⟨"0xparent", "out", "dep/child"⟩]⟩
    bundle_path := "/w/runs/0xw5" }

/-- A manager registering `runW5`. -/
def mW5 : LocalRunManager := { mW with _runs := [("0xw5", runW5)] }

/-- Witness for C5 at a concrete input: writing to the dependency child
path "dep/child" leaves the (empty) filesystem unchanged, while writing
to "out.txt" creates `<bundle_path>/out.txt`. -/
theorem write_spec_witness :
    write mW5 (fun p => p) [] "0xw5" "dep/child" "data" = .ok [] ∧
    write mW5 (fun p => p) [] "0xw5" "out.txt" "data"
      = .ok (fsWrite [] (joinPath "/w/runs/0xw5" "out.txt") "data") :=
  ⟨(write_spec mW5 (fun p => p) [] "0xw5" "dep/child" "data" runW5 rfl).1 (by decide),
   (write_spec mW5 (fun p => p) [] "0xw5" "out.txt" "data" runW5 rfl).2 (by decide)⟩

/-- C9: `mark_finalized(uuid)` sets `finalized` on the run with that
uuid, leaving every other field of that run, every other run, and every
other manager field unchanged; an unknown uuid is ignored: the manager
is returned exactly as it was, without raising. -/
theorem mark_finalized_spec (m : LocalRunManager) (uuid : String) :
    (∀ u, lookupRun (mark_finalized m uuid)._runs u =
      if u = uuid then (lookupRun m._runs u).map (fun r => { r with finalized := true })
      else lookupRun m._runs u) ∧
    (mark_finalized m uuid)._cpuset = m._cpuset ∧
    (mark_finalized m uuid)._gpuset = m._gpuset ∧
    (mark_finalized m uuid)._work_dir = m._work_dir ∧
    (mark_finalized m uuid)._shared_file_system = m._shared_file_system ∧
    (mark_finalized m uuid)._stop = m._stop ∧
    (lookupRun m._runs uuid = none → mark_finalized m uuid = m) := by
  cases hc : lookupRun m._runs uuid with
  | none =>
    refine ⟨?_, ?_, ?_, ?_, ?_, ?_, ?_⟩ <;> simp [mark_finalized, hc]
    intro u
    by_cases h : u = uuid
    · subst h; simp [hc]
    · simp [h]
  | some r =>
    refine ⟨?_, ?_, ?_, ?_, ?_, ?_, ?_⟩ <;> simp [mark_finalized, hc]
    intro u
    rw [lookupRun_setRun]
    by_cases h : u = uuid
    · subst h; simp [hc]
    · simp [h]

/-- Witness for C9 at a concrete input: finalizing the registered run
"0xrun" of `mW` sets exactly its `finalized` field, and finalizing an
unregistered uuid returns the manager unchanged. -/
theorem mark_finalized_spec_witness :
    lookupRun (mark_finalized mW "0xrun")._runs "0xrun"
      = some { runW with finalized := true } ∧
    mark_finalized mW "0xmissing" = mW := by
  constructor
  · have h := (mark_finalized_spec mW "0xrun").1 "0xrun"
    simp only [h]
    simp [mW, lookupRun]
  · exact (mark_finalized_spec mW "0xmissing").2.2.2.2.2.2 rfl

/-- C10: unlike `mark_finalized`, the operations `kill`, `read` and
`write` raise `KeyError` when called with a uuid that is not in the
registry (the dict subscript raises before any mutation, so the
registry is unchanged), while `mark_finalized` on the same uuid returns
the manager untouched. -/
theorem unknown_uuid_raises_key_error (m : LocalRunManager) (normpath : String → String)
    (fs : FileSystem) (uuid path string : String)
    (h : lookupRun m._runs uuid = none) :
    kill m uuid = .error .keyError ∧
    read m uuid path = .error .keyError ∧
    write m normpath fs uuid path string = .error .keyError ∧
    mark_finalized m uuid = m := by
  unfold kill read write mark_finalized
  rw [h]
  exact ⟨rfl, rfl, rfl, rfl⟩

/-- Witness for C10 at a concrete input: the uuid "0xmissing" is not in
`mW`'s registry, so `kill`, `read` and `write` all raise `KeyError`
while `mark_finalized` is a no-op. -/
theorem unknown_uuid_raises_key_error_witness :
    kill mW "0xmissing" = .error .keyError ∧
    read mW "0xmissing" "stdout" = .error .keyError ∧
    write mW (fun p => p) [] "0xmissing" "stdout" "x" = .error .keyError ∧
    mark_finalized mW "0xmissing" = mW :=
  unknown_uuid_raises_key_error mW (fun p => p) [] "0xmissing" "stdout" "x" rfl

/-! ## `create_run` (lines 207-248) -/

/-- `BUNDLES_DIR_NAME = 'runs'`. -/
def BUNDLES_DIR_NAME : String := "runs"

/-- `BUNDLE_DIR_WAIT_NUM_TRIES = 120`. -/
def BUNDLE_DIR_WAIT_NUM_TRIES : Nat := 120

/-- `create_run(bundle, resources)`: refuse when stopping; otherwise
compute `bundle_path` (the bundle's server-assigned location on a shared
filesystem, `<work_dir>/runs/<uuid>` otherwise — `self._bundles_dir` is
`os.path.join(work_dir, BUNDLES_DIR_NAME)` from `__init__`), pass it
through `os.path.realpath` (an external canonicalisation, supplied as
`realpath`), and insert a fresh PREPARING run state under the bundle's
uuid. `time.time()` is supplied as `now`. -/
def create_run (m : LocalRunManager) (realpath : String → String)
    (bundle : BundleInfo) (resources : RunResources) (now : Nat) : LocalRunManager :=
  if m._stop then m
  else
    let bundle_path :=
      if m._shared_file_system then bundle.location
      else joinPath (joinPath m._work_dir BUNDLES_DIR_NAME) bundle.uuid
    let run_state : LocalRunState :=
      { stage := .PREPARING
        run_status := ""
        bundle := bundle
        bundle_path := realpath bundle_path
        bundle_dir_wait_num_tries := BUNDLE_DIR_WAIT_NUM_TRIES
        resources := resources
        bundle_start_time := now
        container_start_time := none
        container_time_total := 0
        container_time_user := 0
        container_time_system := 0
        container_id := none
        container := none
        docker_image := none
        is_killed := false
        has_contents := false
        cpuset := none
        gpuset := none
        max_memory := 0
        disk_utilization := 0
        exitcode := none
        failure_message := none
        kill_message := none
        finished := false
        finalized := false }
    { m with _runs := setRun m._runs bundle.uuid run_state }

/-- A canonicalising path function standing in for `os.path.realpath`,
which is not the identity in general (it resolves symlinks and
normalises): here it maps every path `p` to `"/real" ++ p`. -/
def realpathW : String → String := fun s => "/real" ++ s

/-- A bundle with a server-assigned location, for the shared-filesystem
counterexample. -/
def b8 : BundleInfo := ⟨"0xb8", "/loc/b8", []⟩

/-- Concrete requested resources. -/
def res8 : RunResources := ⟨1, 0, 10, 10, false⟩

/-- A shared-filesystem manager that is not stopping. -/
def mW8 : LocalRunManager :=
  { _cpuset := ["0"], _gpuset := [], _work_dir := "/w", _shared_file_system := true,
    _stop := false, _runs := [] }

/-- Counterexample to C8 as stated: in shared-filesystem mode the
inserted run's `bundle_path` is the *canonicalised* server-assigned
location (`os.path.realpath` is applied on line 224 in both branches),
not the location itself — here `realpathW "/loc/b8" = "/real/loc/b8"`,
which differs from the claimed value `b8.location = "/loc/b8"`. -/
theorem create_run_shared_location_counterexample :
    (lookupRun (create_run mW8 realpathW b8 res8 0)._runs "0xb8").map
        (fun rs => rs.bundle_path) = some "/real/loc/b8" ∧
    some "/real/loc/b8" ≠ some ("/loc/b8" : String) := by
  constructor
  · rfl
  · decide

/-- C8 (amended): when the stopping flag is set, `create_run` returns
the manager unchanged; otherwise it inserts a run state under the
bundle's uuid with stage PREPARING, `is_killed=false`, `finished=false`,
`finalized=false`, no container or container id, no cpuset/gpuset, and
`bundle_path` equal to the *canonicalised* server-assigned location in
shared-filesystem mode or the canonicalised `<work_dir>/runs/<uuid>`
otherwise; every other registry entry is left unchanged. -/
theorem create_run_spec (m : LocalRunManager) (realpath : String → String)
    (bundle : BundleInfo) (resources : RunResources) (now : Nat) :
    (m._stop = true → create_run m realpath bundle resources now = m) ∧
    (m._stop = false → ∀ u, lookupRun (create_run m realpath bundle resources now)._runs u
      = if u = bundle.uuid then some
          { stage := .PREPARING
            run_status := ""
            bundle := bundle
            bundle_path := realpath (if m._shared_file_system then bundle.location
              else joinPath (joinPath m._work_dir BUNDLES_DIR_NAME) bundle.uuid)
            bundle_dir_wait_num_tries := BUNDLE_DIR_WAIT_NUM_TRIES
            resources := resources
            bundle_start_time := now
            container_start_time := none
            container_time_total := 0
            container_time_user := 0
            container_time_system := 0
            container_id := none
            container := none
            docker_image := none
            is_killed := false
            has_contents := false
            cpuset := none
            gpuset := none
            max_memory := 0
            disk_utilization := 0
            exitcode := none
            failure_message := none
            kill_message := none
            finished := false
            finalized := false }
        else lookupRun m._runs u) := by
  constructor
  · intro h; simp [create_run, h]
  · intro h u
    simp only [create_run, h, Bool.false_eq_true, if_false]
    rw [lookupRun_setRun]

/-- Witness for C8 at a concrete input: on the non-stopping shared-FS
manager `mW8`, `create_run` inserts a PREPARING run for "0xb8" whose
`bundle_path` is the canonicalised location, and the (empty) rest of the
registry is untouched. -/
theorem create_run_spec_witness :
    mW8._stop = false ∧
    lookupRun (create_run mW8 realpathW b8 res8 7)._runs "0xb8"
      = some
          { stage := .PREPARING
            run_status := ""
            bundle := b8
            bundle_path := realpathW b8.location
            bundle_dir_wait_num_tries := BUNDLE_DIR_WAIT_NUM_TRIES
            resources := res8
            bundle_start_time := 7
            container_start_time := none
            container_time_total := 0
            container_time_user := 0
            container_time_system := 0
            container_id := none
            container := none
            docker_image := none
            is_killed := false
            has_contents := false
            cpuset := none
            gpuset := none
            max_memory := 0
            disk_utilization := 0
            exitcode := none
            failure_message := none
            kill_message := none
            finished := false
            finalized := false } := by
  refine ⟨rfl, ?_⟩
  have h := (create_run_spec mW8 realpathW b8 res8 7).2 rfl "0xb8"
  simp only [h]
  simp [mW8, b8]

/-! ## `kill_all` (lines 159-182)

The first loop marks every run killed. The second loop runs
`for attempt in range(KILL_TIMEOUT)` and contains no `break` or
`return`: each iteration sweeps FINISHED entries, logs when runs remain,
and sleeps one second — regardless of whether the registry is empty. -/

/-- `KILL_TIMEOUT = 100`. -/
def KILL_TIMEOUT : Nat := 100

/-- The marking loop: set `kill_message='Worker stopped'` and
`is_killed=True` on every run. -/
def kill_all_mark (runs : Registry) : Registry :=
  runs.map (fun p => (p.1, { p.2 with kill_message := some "Worker stopped", is_killed := true }))

/-- The sweeping loop, returning the final registry and the number of
one-second sleeps performed. -/
def kill_all_sweep : Nat → Registry → Registry × Nat
  | 0, runs => (runs, 0)
  | n + 1, runs =>
    let runs := runs.filter (fun p => decide (p.2.stage ≠ .FINISHED))
    let (r, sleeps) := kill_all_sweep n runs
    (r, sleeps + 1)

/-- `kill_all()`: mark every run killed, then sweep `KILL_TIMEOUT`
times. -/
def kill_all (m : LocalRunManager) : LocalRunManager × Nat :=
  let (runs, sleeps) := kill_all_sweep KILL_TIMEOUT (kill_all_mark m._runs)
  ({ m with _runs := runs }, sleeps)

theorem kill_all_sweep_sleeps : ∀ (n : Nat) (runs : Registry), (kill_all_sweep n runs).2 = n := by
  intro n
  induction n with
  | zero => intro runs; rfl
  | succ n ih => intro runs; simp [kill_all_sweep, ih]

/-- C4: evaluation at the failing input — `kill_all` on an
already-empty registry still performs all `KILL_TIMEOUT = 100`
one-second sleeps (the loop has no early exit), instead of returning
without waiting; the registry stays empty. -/
theorem kill_all_empty_registry_sleeps_full :
    (kill_all mW6).2 = 100 ∧ (kill_all mW6).1._runs = [] ∧ (100 : Nat) ≠ 0 := by
  refine ⟨?_, rfl, by decide⟩
  show (kill_all_sweep KILL_TIMEOUT (kill_all_mark mW6._runs)).2 = 100
  rw [kill_all_sweep_sleeps]
  rfl

/-! ## `process_runs` (lines 184-205)

The sweep at lines 193-198 collects `run.container` — the live handle
object (or `None`) — into the list named `finished_container_ids`, and
line 201 passes that value to `self._docker.containers.get`, which
expects an id string. -/

/-- The container runtime's state: container id → container. -/
abbrev DockerState := List (String × Container)

/-- Errors of the docker client: `docker.errors.NotFound`,
`docker.errors.NullResource`, and Python's `ValueError`. -/
inductive DockerErr where
  | notFound
  | nullResource
  | valueError
deriving DecidableEq, Repr

/-- Runtime lookup by container id. -/
def lookupContainer : DockerState → String → Option Container
  | [], _ => none
  | (k, v) :: rest, cid => if k = cid then some v else lookupContainer rest cid

/-- Removing a container from the runtime (`container.remove(force=True)`). -/
def removeContainerById : DockerState → String → DockerState
  | [], _ => []
  | (k, v) :: rest, cid =>
    if k = cid then removeContainerById rest cid else (k, v) :: removeContainerById rest cid

/-- docker-py `client.containers.get` called with the value the source
passes on line 201: `run.container`, which is `None` or a live
`Container` handle, never an id string. docker-py's `check_resource`
decorator raises `NullResource` for a falsy resource id, and for any
non-string id the low-level client's URL formatter (`APIClient._url`,
`"Expected a string but found ..."`) raises `ValueError` before any
request is made — so the runtime lookup itself never happens. -/
def containers_get_obj (_d : DockerState) (arg : Option Container) : Except DockerErr Container :=
  match arg with
  | none => .error .nullResource
  | some _ => .error .valueError

/-- docker-py `client.containers.get` with an id string, as `load_state`
uses on line 119: the container, or `NotFound`. -/
def containers_get (d : DockerState) (cid : String) : Except DockerErr Container :=
  match lookupContainer d cid with
  | some c => .ok c
  | none => .error .notFound

/-- The removal loop at lines 199-204: for each collected value, get and
force-remove, catching only `NotFound` and `NullResource`. Returns the
raised error (if any) together with the runtime state at that point. -/
def removeFinishedContainers : DockerState → List (Option Container) → Option DockerErr × DockerState
  | d, [] => (none, d)
  | d, c :: rest =>
    match containers_get_obj d c with
    | .ok cont => removeFinishedContainers (removeContainerById d cont.handle_id) rest
    | .error .notFound => removeFinishedContainers d rest
    | .error .nullResource => removeFinishedContainers d rest
    | .error e => (some e, d)

/-- `process_runs()`, parameterised by the state machine's transition
function (`LocalRunStateMachine.transition`, defined in
`local_run_state.py`). Returns the raised exception (if any) together
with the manager and runtime state at that point — the transition loop
has already written back into `self._runs` when the removal loop
raises, but the FINISHED sweep on line 205 has not run. -/
def process_runs (transition : LocalRunState → LocalRunState) (m : LocalRunManager)
    (d : DockerState) : Option DockerErr × LocalRunManager × DockerState :=
  let runs := m._runs.map (fun p => (p.1, transition p.2))
  let finished_container_ids := runs.filterMap (fun p =>
    if (p.2.stage = .FINISHED ∨ p.2.stage = .FINALIZING) ∧ p.2.container_id ≠ none
    then some p.2.container else none)
  match removeFinishedContainers d finished_container_ids with
  | (some e, d') => (some e, { m with _runs := runs }, d')
  | (none, d') =>
    (none, { m with _runs := runs.filter (fun p => decide (p.2.stage ≠ .FINISHED)) }, d')

/-- The removal loop never removes anything: the get-by-handle call
never returns a container, so the runtime state is returned exactly as
it was, and an uncaught `ValueError` is raised as soon as any collected
value is an actual handle. -/
theorem removeFinishedContainers_never_removes :
    ∀ (l : List (Option Container)) (d : DockerState),
      (removeFinishedContainers d l).2 = d ∧
      ((removeFinishedContainers d l).1 = none ↔ ∀ c ∈ l, c = none) := by
  intro l
  induction l with
  | nil => intro d; simp [removeFinishedContainers]
  | cons c rest ih =>
    intro d
    cases c with
    | none => simp [removeFinishedContainers, containers_get_obj, ih]
    | some cont => simp [removeFinishedContainers, containers_get_obj]

/-- A FINISHED run still holding its container: `container_id = "c1"`
and the live handle for "c1". -/
def runW3 : LocalRunState :=
  { runW with
    stage := .FINISHED, container_id := some "c1", container := some ⟨"c1"⟩,
    finished := true }

/-- A manager whose registry holds only the finished run. -/
def mW3 : LocalRunManager := { mW6 with _runs := [("0xfin", runW3)] }

/-- The runtime still holds container "c1". -/
def dW3 : DockerState := [("c1", ⟨"c1"⟩)]

/-- C3: evaluation at the failing input — one FINISHED run holding
container "c1", which exists in the runtime, and the identity
transition. `process_runs` raises `ValueError` (the live handle, not the
id string, is passed to `containers.get`), the container is *not*
removed from the runtime, and the FINISHED run survives the tick in the
registry. -/
theorem process_runs_finished_run_survives :
    process_runs (fun r => r) mW3 dW3 = (some .valueError, mW3, dW3) ∧
    lookupContainer dW3 "c1" = some ⟨"c1"⟩ ∧
    lookupRun mW3._runs "0xfin" = some runW3 ∧
    runW3.stage = .FINISHED := by
  refine ⟨?_, rfl, rfl, rfl⟩
  rfl

/-! ## `save_state` / `load_state` (lines 102-127)

The persistence projection strips the live container handle, converts
the nested bundle/resources objects to plain records and commits; on
load the records are converted back, and the live handle is re-queried
from the runtime by `container_id` (the Python guard is
`if run_state.container_id:`, so a falsy — empty — id skips the
lookup). The serialisation helpers live outside src/ and are modelled
from the specification. -/

/-- The plain record `BundleInfo.to_dict` produces. -/
structure BundleDict where
  uuid : String
  location : String
  dependencies : List DependencyKey
deriving DecidableEq, Repr

/-- Modelled from the spec: `BundleInfo.to_dict`
(`codalab/worker/bundle_state.py`, not under src/) converts the nested
bundle object into a plain record; the specification states that bundle
data survives the dict round-trip. -/
def BundleInfo.to_dict (b : BundleInfo) : BundleDict := ⟨b.uuid, b.location, b.dependencies⟩

/-- Modelled from the spec: `BundleInfo.from_dict` restores the bundle
object from its plain record. -/
def BundleInfo.from_dict (dict : BundleDict) : BundleInfo :=
  ⟨dict.uuid, dict.location, dict.dependencies⟩

/-- The plain record `RunResources.to_dict` produces. -/
structure ResourcesDict where
  cpus : Nat
  gpus : Nat
  memory : Nat
  disk : Nat
  network : Bool
deriving DecidableEq, Repr

/-- Modelled from the spec: `RunResources.to_dict`
(`codalab/worker/bundle_state.py`, not under src/). -/
def RunResources.to_dict (r : RunResources) : ResourcesDict :=
  ⟨r.cpus, r.gpus, r.memory, r.disk, r.network⟩

/-- Modelled from the spec: `RunResources.from_dict`. -/
def RunResources.from_dict (dict : ResourcesDict) : RunResources :=
  ⟨dict.cpus, dict.gpus, dict.memory, dict.disk, dict.network⟩

/-- A run state as persisted: the same namedtuple, but with the bundle
and resources replaced by their plain records and the live container
handle stripped (`_replace(container=None, bundle=..., resources=...)`). -/
structure SavedRunState where
  stage : LocalRunStage
  run_status : String
  bundle : BundleDict
  bundle_path : String
  bundle_dir_wait_num_tries : Nat
  resources : ResourcesDict
  bundle_start_time : Nat
  container_start_time : Option Nat
  container_time_total : Nat
  container_time_user : Nat
  container_time_system : Nat
  container_id : Option String
  container : Option Container
  docker_image : Option String
  is_killed : Bool
  has_contents : Bool
  cpuset : Option (List String)
  gpuset : Option (List String)
  max_memory : Nat
  disk_utilization : Nat
  exitcode : Option Int
  failure_message : Option String
  kill_message : Option String
  finished : Bool
  finalized : Bool
deriving DecidableEq, Repr

/-- Modelled from the spec: `JsonStateCommitter`
(`codalab/worker/state_committer.py`, not under src/) atomically
replaces the on-disk snapshot on `commit` and returns the last committed
snapshot on `load`. -/
structure JsonStateCommitter where
  committed : List (String × SavedRunState)
deriving DecidableEq, Repr

/-- Modelled from the spec: `commit(snapshot)` durably stores the
snapshot. -/
def JsonStateCommitter.commit (_c : JsonStateCommitter)
    (snapshot : List (String × SavedRunState)) : JsonStateCommitter :=
  ⟨snapshot⟩

/-- Modelled from the spec: `load()` returns the last committed
snapshot. -/
def JsonStateCommitter.load (c : JsonStateCommitter) : List (String × SavedRunState) :=
  c.committed

/-- The projection applied to each run before commit (lines 104-109). -/
def stripRun (r : LocalRunState) : SavedRunState :=
  { stage := r.stage, run_status := r.run_status, bundle := r.bundle.to_dict,
    bundle_path := r.bundle_path, bundle_dir_wait_num_tries := r.bundle_dir_wait_num_tries,
    resources := r.resources.to_dict, bundle_start_time := r.bundle_start_time,
    container_start_time := r.container_start_time,
    container_time_total := r.container_time_total,
    container_time_user := r.container_time_user,
    container_time_system := r.container_time_system,
    container_id := r.container_id, container := none, docker_image := r.docker_image,
    is_killed := r.is_killed, has_contents := r.has_contents, cpuset := r.cpuset,
    gpuset := r.gpuset, max_memory := r.max_memory, disk_utilization := r.disk_utilization,
    exitcode := r.exitcode, failure_message := r.failure_message,
    kill_message := r.kill_message, finished := r.finished, finalized := r.finalized }

/-- `save_state()` (lines 102-110). -/
def save_state (m : LocalRunManager) (c : JsonStateCommitter) : JsonStateCommitter :=
  c.commit (m._runs.map (fun p => (p.1, stripRun p.2)))

/-- The container re-query of `load_state` (lines 116-123): when
`container_id` is truthy, get the container by id; on success repopulate
the live handle, on `NotFound` clear `container_id`. -/
def reviveContainer (d : DockerState) (r : SavedRunState) : SavedRunState :=
  match r.container_id with
  | some cid =>
    if cid = "" then r
    else
      match containers_get d cid with
      | .ok cont => { r with container := some cont }
      | .error _ => { r with container_id := none }
  | none => r

/-- The record restoration of `load_state` (lines 124-127):
`_replace(bundle=BundleInfo.from_dict(...), resources=RunResources.from_dict(...))`. -/
def restoreRun (r : SavedRunState) : LocalRunState :=
  { stage := r.stage, run_status := r.run_status,
    bundle := BundleInfo.from_dict r.bundle,
    bundle_path := r.bundle_path, bundle_dir_wait_num_tries := r.bundle_dir_wait_num_tries,
    resources := RunResources.from_dict r.resources,
    bundle_start_time := r.bundle_start_time,
    container_start_time := r.container_start_time,
    container_time_total := r.container_time_total,
    container_time_user := r.container_time_user,
    container_time_system := r.container_time_system,
    container_id := r.container_id, container := r.container,
    docker_image := r.docker_image,
    is_killed := r.is_killed, has_contents := r.has_contents, cpuset := r.cpuset,
    gpuset := r.gpuset, max_memory := r.max_memory, disk_utilization := r.disk_utilization,
    exitcode := r.exitcode, failure_message := r.failure_message,
    kill_message := r.kill_message, finished := r.finished, finalized := r.finalized }

/-- `load_state()` (lines 112-127): process every persisted run and
store it in the registry. -/
def load_state (m : LocalRunManager) (d : DockerState) (c : JsonStateCommitter) :
    LocalRunManager :=
  { m with
    _runs := c.load.foldl
      (fun runs p => setRun runs p.1 (restoreRun (reviveContainer d p.2))) m._runs }

/-- The specification's description of a round-tripped run: every field
preserved except the live handle, which is repopulated from the runtime
by `container_id`, with `container_id` cleared to `None` when the
runtime reports the container not found. -/
def reloadedRun (d : DockerState) (r : LocalRunState) : LocalRunState :=
  match r.container_id with
  | some cid =>
    match lookupContainer d cid with
    | some cont => { r with container := some cont }
    | none => { r with container := none, container_id := none }
  | none => { r with container := none }

theorem restore_strip_run (d : DockerState) (r : LocalRunState) (h : r.container_id ≠ some "") :
    restoreRun (reviveContainer d (stripRun r)) = reloadedRun d r := by
  cases hc : r.container_id with
  | none =>
    simp [stripRun, reviveContainer, restoreRun, reloadedRun, hc,
      BundleInfo.to_dict, BundleInfo.from_dict, RunResources.to_dict, RunResources.from_dict]
  | some cid =>
    have hne : cid ≠ "" := fun h' => h (by rw [hc, h'])
    cases hl : lookupContainer d cid with
    | some cont =>
      simp [stripRun, reviveContainer, restoreRun, reloadedRun, hc, hl, hne,
        containers_get, BundleInfo.to_dict, BundleInfo.from_dict,
        RunResources.to_dict, RunResources.from_dict]
    | none =>
      simp [stripRun, reviveContainer, restoreRun, reloadedRun, hc, hl, hne,
        containers_get, BundleInfo.to_dict, BundleInfo.from_dict,
        RunResources.to_dict, RunResources.from_dict]

theorem setRun_append (acc : Registry) (u : String) (r : LocalRunState)
    (h : ∀ p ∈ acc, p.1 ≠ u) : setRun acc u r = acc ++ [(u, r)] := by
  induction acc with
  | nil => rfl
  | cons q rest ih =>
    have hq : q.1 ≠ u := h q (List.mem_cons_self q rest)
    simp only [setRun, hq, if_false, List.cons_append, List.cons.injEq, true_and]
    exact ih (fun p hp => h p (List.mem_cons_of_mem q hp))

theorem foldl_setRun_eq_append (f : SavedRunState → LocalRunState) :
    ∀ (l : List (String × SavedRunState)) (acc : Registry),
      (∀ q ∈ l, ∀ p ∈ acc, p.1 ≠ q.1) → (l.map Prod.fst).Nodup →
      l.foldl (fun runs p => setRun runs p.1 (f p.2)) acc
        = acc ++ l.map (fun p => (p.1, f p.2)) := by
  intro l
  induction l with
  | nil => intro acc _ _; simp
  | cons q rest ih =>
    intro acc hdisj hnd
    simp only [List.foldl_cons]
    rw [setRun_append acc q.1 (f q.2) (fun p hp => hdisj q (List.mem_cons_self _ _) p hp)]
    rw [List.map_cons, List.nodup_cons] at hnd
    rw [ih (acc ++ [(q.1, f q.2)]) ?_ hnd.2]
    · simp
    · intro q' hq' p hp
      rcases List.mem_append.mp hp with hp | hp
      · exact hdisj q' (List.mem_cons_of_mem _ hq') p hp
      · have hpq : p = (q.1, f q.2) := List.mem_singleton.mp hp
        subst hpq
        intro hcontra
        apply hnd.1
        rw [hcontra]
        exact List.mem_map_of_mem Prod.fst hq'

/-- C2: committing a snapshot and loading it into a freshly booted
manager reproduces the registry modulo the live container handle —
bundle and resources survive the dict round-trip, and for each run whose
`container_id` is set the live handle is repopulated from the runtime,
or `container_id` is cleared to `None` when the runtime reports the
container not found. (Registered runs have non-empty container ids; an
empty string would be falsy in Python and skip the re-query.) -/
theorem save_load_round_trip (m m0 : LocalRunManager) (c : JsonStateCommitter)
    (d : DockerState)
    (h0 : m0._runs = [])
    (hkeys : (m._runs.map Prod.fst).Nodup)
    (hids : ∀ p ∈ m._runs, p.2.container_id ≠ some "") :
    (load_state m0 d (save_state m c))._runs
      = m._runs.map (fun p => (p.1, reloadedRun d p.2)) := by
  unfold load_state save_state JsonStateCommitter.commit JsonStateCommitter.load
  rw [h0]
  have hnd2 : ((m._runs.map (fun p => (p.1, stripRun p.2))).map Prod.fst).Nodup := by
    rw [List.map_map]
    exact hkeys
  have h := foldl_setRun_eq_append (fun s => restoreRun (reviveContainer d s))
    (m._runs.map (fun p => (p.1, stripRun p.2))) []
    (fun q _ p hp => absurd hp (List.not_mem_nil p)) hnd2
  refine Eq.trans h ?_
  rw [List.nil_append, List.map_map]
  apply List.map_congr_left
  intro p hp
  have hval := restore_strip_run d p.2 (hids p hp)
  simp only [Function.comp_apply, hval]

/-- A run whose container "cG" has been removed from the runtime. -/
def runGone : LocalRunState :=
  { runW with
    bundle := ⟨"0xgone", "/srv/bundles/0xgone", []⟩
    container_id := some "cG", container := some ⟨"cG"⟩ }

/-- A manager with one run whose container is still live ("c0") and one
whose container is gone ("cG"). -/
def mW2 : LocalRunManager := { mW with _runs := [("0xrun", runW), ("0xgone", runGone)] }

/-- The runtime at reload time: only "c0" still exists. -/
def dW2 : DockerState := [("c0", ⟨"c0"⟩)]

/-- Witness for C2 at a concrete input: saving `mW2` and loading into
the empty-registry manager `mW8` repopulates "0xrun"'s handle from the
still-live container "c0" and clears "0xgone"'s stale container id. -/
theorem save_load_round_trip_witness :
    (load_state mW8 dW2 (save_state mW2 ⟨[]⟩))._runs
      = mW2._runs.map (fun p => (p.1, reloadedRun dW2 p.2)) :=
  save_load_round_trip mW2 mW8 ⟨[]⟩ dW2 rfl (by decide) (by decide)

end CodaLabWorker
